import Mathlib

/-!
Shallow embedding of `tcorr_export_scene_by_wrs2.py` (SSEBOP scene Tcorr
export driver).  The script's `main` function is modelled as pure functions
over explicit inputs; its remote side effects (Earth Engine calls) are
recorded as an effect trace, with the remote platform's responses supplied
as inputs (`RunInput`).  Numeric Earth Engine values are modelled as `ℚ`;
`datetime` values are modelled as `ℚ` day ordinals (proleptic Gregorian day
number, fractional part = time of day), so that values produced by
`strptime('%Y-%m-%d')` are whole numbers while `datetime.today()` may carry
a fractional time component.
-/

namespace TcorrExport

/-- `export_id_fmt = 'tcorr_scene_{product}_{scene_id}'`, line 52. -/
def export_id_fmt (product scene_id : String) : String :=
  "tcorr_scene_" ++ product ++ "_" ++ scene_id

/-- `asset_id_fmt = '{coll_id}/{scene_id}'`, line 53. -/
def asset_id_fmt (coll_id scene_id : String) : String :=
  coll_id ++ "/" ++ scene_id

/-- `tcorr_scene_coll_id = '{}/{}_scene'.format(export_coll, tmax_name.lower())`,
lines 55-56 (the `tmax_name.lower()` is applied by the caller). -/
def tcorrSceneCollId (export_coll tmax_lower : String) : String :=
  export_coll ++ "/" ++ tmax_lower ++ "_scene"

/-- `str.lower()`: ASCII lowercasing, modelled characterwise. -/
def strLower (s : String) : String :=
  String.mk (s.toList.map Char.toLower)

/-- Python `str.split(sep)` for a one-character separator, over the
character list: splits at every occurrence of `sep`, keeping empty parts. -/
def splitChar (sep : Char) : List Char → List (List Char)
  | [] => [[]]
  | c :: rest =>
      let groups := splitChar sep rest
      if c = sep then [] :: groups
      else
        match groups with
        | [] => [[c]]
        | g :: gs => (c :: g) :: gs

/-- `scene_id = image_id.split('/')[-1]`, line 333. -/
def sceneIdOf (image_id : String) : String :=
  String.mk ((splitChar '/' image_id.toList).getLastD [])

/-- `datetime.datetime(1984, 3, 23)` (line 271) as a proleptic Gregorian day
ordinal (`datetime.date(1984, 3, 23).toordinal() = 724358`). -/
def landsat5Start : ℚ := 724358

/-- Lines 267-270: `if end_dt >= datetime.datetime.today(): end_dt = datetime.datetime.today()`. -/
def clampEndDt (end_dt today : ℚ) : ℚ :=
  if end_dt ≥ today then today else end_dt

/-- Lines 271-274: `if start_dt < datetime.datetime(1984, 3, 23): start_dt = datetime.datetime(1984, 3, 23)`. -/
def clampStartDt (start_dt : ℚ) : ℚ :=
  if start_dt < landsat5Start then landsat5Start else start_dt

/-- `strftime('%Y-%m-%d')` of a datetime keeps only the calendar date:
the integer part of the day ordinal. -/
def dateOf (dt : ℚ) : ℤ := ⌊dt⌋

/-- Lines 263-281: parse dates, clamp the end date to today, clamp the start
date to the Landsat 5 boundary, then
`if start_dt > end_dt: raise ValueError('start date must be before end date')`. -/
def resolveDates (start_dt end_dt today : ℚ) : Except String (ℚ × ℚ) :=
  let end_dt := clampEndDt end_dt today
  let start_dt := clampStartDt start_dt
  if start_dt > end_dt then Except.error "start date must be before end date"
  else Except.ok (start_dt, end_dt)

/-- `ee.Dictionary.combine(second, overwrite)`: keys of both dictionaries;
on a common key the second dictionary's value wins iff `overwrite`. -/
def eeDictCombine (first second : String → Option ℚ) (overwrite : Bool) :
    String → Option ℚ :=
  fun k =>
    match first k, second k with
    | some v, some w => some (if overwrite then w else v)
    | some v, none => some v
    | none, w => w

/-- The literal dictionary defaults in line 379. -/
def tcorrDefaults : String → Option ℚ :=
  fun k =>
    if k = "tcorr_p5" then some 0
    else if k = "tcorr_count" then some 0
    else none

/-- Lines 378-379:
`t_stats = ee.Dictionary(t_obj.tcorr_stats).combine(defaults, overwrite=False)`. -/
def combinedStats (tcorr_stats : String → Option ℚ) : String → Option ℚ :=
  eeDictCombine tcorr_stats tcorrDefaults false

/-- An Earth Engine single-band image over an abstract pixel grid:
`none` = masked pixel, `some v` = valid pixel of value `v`. -/
def EEImage : Type := ℕ → Option ℚ

/-- `img.multiply(c)` (line 136 uses `.multiply(0)`). -/
def multiplyConst (img : EEImage) (c : ℚ) : EEImage :=
  fun p => (img p).map (· * c)

/-- `img.add(t)` for a scalar `ee.Number` (line 386). -/
def addConst (img : EEImage) (t : ℚ) : EEImage :=
  fun p => (img p).map (· + t)

/-- `img.updateMask(0)` (line 387): every pixel becomes invalid. -/
def updateMaskZero (_img : EEImage) : EEImage :=
  fun _ => none

/-- `img.clip(geometry)` (line 390): pixels outside the footprint are masked. -/
def clipTo (img : EEImage) (footprint : ℕ → Bool) : EEImage :=
  fun p => if footprint p then img p else none

/-- `img.unmask(0)` (line 393): masked pixels are replaced with value 0,
making the image valid everywhere. -/
def unmaskZero (img : EEImage) : ℕ → ℚ :=
  fun p => (img p).getD 0

/-- `img.updateMask(mask)`: pixels where the mask value is 0 become invalid. -/
def updateMask (img : EEImage) (mask : ℕ → ℚ) : EEImage :=
  fun p => if mask p = 0 then none else img p

/-- Lines 384-387:
`tcorr_img = ee.Algorithms.If(count.gt(min_pixel_count), tmax_mask.add(tcorr), tmax_mask.updateMask(0))`. -/
def tcorrImg (tmax_mask : EEImage) (min_pixel_count tcorr count : ℚ) : EEImage :=
  if count > min_pixel_count then addConst tmax_mask tcorr
  else updateMaskZero tmax_mask

/-- Lines 384-393: the emitted output image —
`ee.Image(tcorr_img).clip(image.geometry())` followed by
`output_img.updateMask(output_img.unmask(0))` (band rename and metadata
properties do not change pixel values). -/
def outputImg (tmax_mask : EEImage) (footprint : ℕ → Bool)
    (min_pixel_count tcorr count : ℚ) : EEImage :=
  let clipped := clipTo (tcorrImg tmax_mask min_pixel_count tcorr count) footprint
  updateMask clipped (unmaskZero clipped)

/-- The remote side effects `main` performs, in program order.
`startExport` would be emitted by `utils.ee_task_start(task)` at line 432,
but that call is commented out in the source, so no function below ever
emits it; `buildExport` records `ee.batch.Export.image.toAsset(...)` at
lines 422-429, which only constructs the (unstarted) task object. -/
inductive Effect : Type where
  | promptEnter : Effect
  | createCollection : String → Effect
  | getAssetList : String → Effect
  | getTasks : Effect
  | enumTiles : Effect
  | logWarnSkipTile : String → Effect
  | cancelTask : String → Effect
  | deleteAsset : String → Effect
  | buildExport : String → String → Effect
  | startExport : String → Effect
  | delayTask : Effect
  deriving DecidableEq, Repr

/-- Everything `main` reads from its configuration and from the remote
platform, supplied up front so the run is a pure function.
Fields in order: `collExists` (`ee.data.getInfo(tcorr_scene_coll_id)`),
`assets` (`utils.get_ee_assets`), `tasks` (`utils.get_ee_tasks`, as pairs
of export id and task id), `tiles` (WRS2 tile ids from `wrs2_info`),
`listing` (per-tile result of `aggregate_array('system:id').getInfo()`),
`start_dt`, `end_dt` (from the INI), `today` (`datetime.datetime.today()`),
`overwrite_flag`, `reverse_flag`, `tmax_name`, `export_coll`. -/
structure RunInput : Type where
  collExists : Bool
  assets : List String
  tasks : List (String × String)
  tiles : List String
  listing : String → Except String (List String)
  start_dt : ℚ
  end_dt : ℚ
  today : ℚ
  overwrite_flag : Bool
  reverse_flag : Bool
  tmax_name : String
  export_coll : String

/-- The run's export collection id (lines 55-56). -/
def collIdOf (r : RunInput) : String :=
  tcorrSceneCollId r.export_coll (strLower r.tmax_name)

/-- Lines 350-351: `export_id = export_id_fmt.format(product=tmax_name.lower(), scene_id=scene_id)`. -/
def exportIdOf (r : RunInput) (image_id : String) : String :=
  export_id_fmt (strLower r.tmax_name) (sceneIdOf image_id)

/-- Lines 354-355: `asset_id = asset_id_fmt.format(coll_id=tcorr_scene_coll_id, scene_id=scene_id)`. -/
def assetIdOf (r : RunInput) (image_id : String) : String :=
  asset_id_fmt (collIdOf r) (sceneIdOf image_id)

/-- `tasks[export_id]['id']`: dictionary lookup in the task snapshot. -/
def lookupTask : List (String × String) → String → Option String
  | [], _ => none
  | (k, v) :: rest, eid => if k = eid then some v else lookupTask rest eid

/-- Lines 358-432, the body of the per-scene loop, as the list of remote
effects it performs.  Overwrite branch (358-366): cancel a pending task,
and independently (not `elif`) delete an existing asset, then fall through
to the build.  Non-overwrite branch (367-373): `continue` (no effects) when
the export id is a pending task or the asset exists.  The build/submit
stage (375-432) constructs the export task (`buildExport`); the actual
`utils.ee_task_start(task)` call at line 432 is commented out, so no
`startExport` effect is emitted. -/
def processScene (r : RunInput) (image_id : String) : List Effect :=
  let eid := exportIdOf r image_id
  let aid := assetIdOf r image_id
  if r.overwrite_flag then
    (match lookupTask r.tasks eid with
      | some tid => [Effect.cancelTask tid]
      | none => []) ++
    (if aid ∈ r.assets then [Effect.deleteAsset aid] else []) ++
    [Effect.buildExport eid aid]
  else
    if (lookupTask r.tasks eid).isSome then []
    else if aid ∈ r.assets then []
    else [Effect.buildExport eid aid]

/-- Line 332: `sorted(image_id_list, reverse=reverse_flag)`. -/
def sortIds (reverse : Bool) (ids : List String) : List String :=
  let asc := ids.mergeSort (fun a b => decide (a ≤ b))
  if reverse then asc.reverse else asc

/-- Lines 326-436, the body of the per-tile loop: on a listing failure,
log a warning and `continue` (skipping the tile entirely, including the
end-of-tile `utils.delay_task` call); otherwise process every scene in
sorted order and then throttle (`delayTask`). -/
def processTile (r : RunInput) (tile : String) : List Effect :=
  match r.listing tile with
  | Except.error _ => [Effect.logWarnSkipTile tile]
  | Except.ok ids =>
      (sortIds r.reverse_flag ids).flatMap (processScene r) ++ [Effect.delayTask]

/-- Lines 215-231: if the export collection does not exist, prompt for
ENTER on stdin and create it; then fetch the asset list and the task
snapshot. -/
def setupTrace (r : RunInput) : List Effect :=
  (if r.collExists then []
   else [Effect.promptEnter, Effect.createCollection (collIdOf r)]) ++
  [Effect.getAssetList (collIdOf r), Effect.getTasks]

/-- `main` as a pure function: the remote effect trace together with the
error message of the `ValueError` at line 281, if raised.  The date check
(lines 263-281) runs after the setup fetches (215-231) and before the WRS2
tile enumeration (`wrs2_coll.getInfo()`, line 292, recorded as
`enumTiles`). -/
def runMain (r : RunInput) : List Effect × Option String :=
  match resolveDates r.start_dt r.end_dt r.today with
  | Except.error msg => (setupTrace r, some msg)
  | Except.ok _ =>
      (setupTrace r ++ Effect.enumTiles :: r.tiles.flatMap (processTile r), none)

/-! Concrete run inputs used to exercise the theorems below.
`RunInput` fields in order: collExists, assets, tasks, tiles, listing,
start_dt, end_dt, today, overwrite_flag, reverse_flag, tmax_name,
export_coll. -/

/-- A plain run: collection exists, empty remote state. -/
def sampleRunA : RunInput :=
  ⟨true, [], [], [], fun _ => Except.ok [], 0, 0, 0, false, false, "DM", "p"⟩

/-- A run differing from `sampleRunA` in every field except the two that
determine the identifiers. -/
def sampleRunB : RunInput :=
  ⟨false, ["x"], [("e", "t")], ["tile"], fun _ => Except.error "e",
   1, 2, 3, true, true, "DM", "p"⟩

/-- Overwrite run with both a pending task and an existing asset for the
scene "C/S" (export id "tcorr_scene_dm_S", asset id "p/dm_scene/S"). -/
def overwriteRun : RunInput :=
  ⟨true, ["p/dm_scene/S"], [("tcorr_scene_dm_S", "TID")], [],
   fun _ => Except.ok [], 0, 0, 0, true, false, "DM", "p"⟩

/-- Non-overwrite run with a pending task for the scene "C/S". -/
def dedupRun : RunInput :=
  ⟨true, ["p/dm_scene/S"], [("tcorr_scene_dm_S", "TID")], [],
   fun _ => Except.ok [], 0, 0, 0, false, false, "DM", "p"⟩

/-- A run whose clamped start date (10 → 724358) lands after its clamped
end date (5 → clamped to today = 3). -/
def abortRun : RunInput :=
  ⟨true, [], [], ["t"], fun _ => Except.ok [], 10, 5, 3, false, false, "dm", "p"⟩

/-- A run with two tiles where listing the first tile fails. -/
def skipTileRun : RunInput :=
  ⟨true, [], [], ["bad", "good"],
   fun tl => if tl = "bad" then Except.error "e" else Except.ok ["C/S"],
   724360, 724365, 724370, false, false, "dm", "p"⟩

/-- A run whose export collection does not exist yet. -/
def missingCollRun : RunInput :=
  ⟨false, [], [], [], fun _ => Except.ok [], 724360, 724365, 724370,
   false, false, "dm", "p"⟩

/-- A constant-valued reference Tmax band, valid at every pixel. -/
def constBand : EEImage := fun _ => some 7

/-- A footprint covering every pixel. -/
def fullFootprint : ℕ → Bool := fun _ => true

/-- C3: for every product name and scene identifier, the derived export id
and asset id are pure deterministic functions of (product name, scene id):
two runs agreeing on `tmax_name` (and, for the asset id, on the export
collection) derive the same identifiers, of the forms
`tcorr_scene_<product>_<scene_id>` and `<collection>/<scene_id>`. -/
theorem export_and_asset_ids_deterministic (r₁ r₂ : RunInput) (image_id : String)
    (hname : r₁.tmax_name = r₂.tmax_name)
    (hcoll : r₁.export_coll = r₂.export_coll) :
    exportIdOf r₁ image_id = exportIdOf r₂ image_id ∧
    assetIdOf r₁ image_id = assetIdOf r₂ image_id ∧
    exportIdOf r₁ image_id =
      "tcorr_scene_" ++ strLower r₁.tmax_name ++ "_" ++ sceneIdOf image_id ∧
    assetIdOf r₁ image_id = collIdOf r₁ ++ "/" ++ sceneIdOf image_id := by
  simp [exportIdOf, assetIdOf, export_id_fmt, asset_id_fmt, collIdOf,
    tcorrSceneCollId, hname, hcoll]

theorem export_and_asset_ids_deterministic_check :
    exportIdOf sampleRunA "C/S" = exportIdOf sampleRunB "C/S" ∧
    assetIdOf sampleRunA "C/S" = assetIdOf sampleRunB "C/S" ∧
    exportIdOf sampleRunA "C/S" =
      "tcorr_scene_" ++ strLower sampleRunA.tmax_name ++ "_" ++ sceneIdOf "C/S" ∧
    assetIdOf sampleRunA "C/S" = collIdOf sampleRunA ++ "/" ++ sceneIdOf "C/S" :=
  export_and_asset_ids_deterministic sampleRunA sampleRunB "C/S" rfl rfl

/-- C5: the `combine(..., overwrite=False)` call defaults `tcorr_p5` and
`tcorr_count` to zero only when the remote statistics omit them; values the
remote result does supply are not overwritten by the zero defaults. -/
theorem tcorr_stats_defaults (stats : String → Option ℚ) :
    (stats "tcorr_p5" = none → combinedStats stats "tcorr_p5" = some 0) ∧
    (∀ v, stats "tcorr_p5" = some v → combinedStats stats "tcorr_p5" = some v) ∧
    (stats "tcorr_count" = none → combinedStats stats "tcorr_count" = some 0) ∧
    (∀ v, stats "tcorr_count" = some v →
      combinedStats stats "tcorr_count" = some v) := by
  refine ⟨?_, ?_, ?_, ?_⟩
  · intro h
    simp [combinedStats, eeDictCombine, tcorrDefaults, h]
  · intro v h
    simp [combinedStats, eeDictCombine, tcorrDefaults, h]
  · intro h
    simp [combinedStats, eeDictCombine, tcorrDefaults, h]
  · intro v h
    simp [combinedStats, eeDictCombine, tcorrDefaults, h]

theorem tcorr_stats_defaults_check :
    combinedStats (fun _ => none) "tcorr_p5" = some 0 ∧
    combinedStats (fun _ => some 5) "tcorr_count" = some 5 :=
  ⟨(tcorr_stats_defaults (fun _ => none)).1 rfl,
   (tcorr_stats_defaults (fun _ => some 5)).2.2.2 5 rfl⟩

/-- C6: if the configured end date (a whole-day ordinal from `strptime`)
falls on a calendar date after today's calendar date, the effective end
date used for querying is today's date. -/
theorem end_date_clamped_to_today (end_ord : ℤ) (today : ℚ)
    (h : ⌊today⌋ < end_ord) :
    dateOf (clampEndDt (end_ord : ℚ) today) = ⌊today⌋ := by
  have h1 : (⌊today⌋ : ℚ) + 1 ≤ (end_ord : ℚ) := by exact_mod_cast h
  have h2 : today ≤ (end_ord : ℚ) :=
    le_of_lt (lt_of_lt_of_le (Int.lt_floor_add_one today) h1)
  unfold clampEndDt dateOf
  rw [if_pos h2]

theorem end_date_clamped_to_today_check :
    dateOf (clampEndDt ((2 : ℤ) : ℚ) (1 / 2)) = ⌊(1 / 2 : ℚ)⌋ :=
  end_date_clamped_to_today 2 (1 / 2) (by norm_num)

/-- C7: a configured start date earlier than the Landsat 5 imaging boundary
(1984-03-23) is clamped to exactly that boundary. -/
theorem start_date_clamped_to_boundary (start_dt : ℚ)
    (h : start_dt < landsat5Start) :
    clampStartDt start_dt = landsat5Start := by
  simp [clampStartDt, h]

theorem start_date_clamped_to_boundary_check :
    clampStartDt 0 = landsat5Start :=
  start_date_clamped_to_boundary 0 (by norm_num [landsat5Start])

/-- C1: with overwrite off, a scene whose export id is a pending task is
skipped (no remote effects); otherwise a scene whose asset id already
exists is skipped; only when neither identifier is present does the loop
proceed to the build-and-submit stage for that scene. -/
theorem dedup_skip_policy (r : RunInput) (image_id : String)
    (hov : r.overwrite_flag = false) :
    ((lookupTask r.tasks (exportIdOf r image_id)).isSome →
      processScene r image_id = []) ∧
    (lookupTask r.tasks (exportIdOf r image_id) = none →
      assetIdOf r image_id ∈ r.assets → processScene r image_id = []) ∧
    (lookupTask r.tasks (exportIdOf r image_id) = none →
      assetIdOf r image_id ∉ r.assets →
      processScene r image_id =
        [Effect.buildExport (exportIdOf r image_id) (assetIdOf r image_id)]) := by
  refine ⟨?_, ?_, ?_⟩
  · intro h
    simp [processScene, hov, h]
  · intro h1 h2
    simp [processScene, hov, h1, h2]
  · intro h1 h2
    simp [processScene, hov, h1, h2]

theorem dedup_skip_policy_check : processScene dedupRun "C/S" = [] :=
  (dedup_skip_policy dedupRun "C/S" rfl).1 (by decide)

/-- C2 (counterexample to the claim as stated): with overwrite on and both
a pending task and an existing asset present for scene "C/S", the loop
cancels the task once, deletes the asset once and builds the export task,
but the trace contains no task-start submission: the
`utils.ee_task_start(task)` call at line 432 is commented out, so no job
is submitted to the remote scheduler. -/
theorem overwrite_no_submission :
    overwriteRun.overwrite_flag = true ∧
    lookupTask overwriteRun.tasks (exportIdOf overwriteRun "C/S") = some "TID" ∧
    assetIdOf overwriteRun "C/S" ∈ overwriteRun.assets ∧
    processScene overwriteRun "C/S" =
      [Effect.cancelTask "TID", Effect.deleteAsset "p/dm_scene/S",
       Effect.buildExport "tcorr_scene_dm_S" "p/dm_scene/S"] ∧
    Effect.startExport "tcorr_scene_dm_S" ∉ processScene overwriteRun "C/S" := by
  decide

/-- C2 (amended): with overwrite on and both a pending task and an existing
asset present, the cancel-task and delete-asset effects each occur exactly
once (independently, not mutually exclusively) and the export task for the
scene is still built; no start/submission effect occurs, since the task
start call is commented out in the source. -/
theorem overwrite_cancel_delete_rebuild (r : RunInput) (image_id tid : String)
    (hov : r.overwrite_flag = true)
    (htask : lookupTask r.tasks (exportIdOf r image_id) = some tid)
    (hasset : assetIdOf r image_id ∈ r.assets) :
    processScene r image_id =
      [Effect.cancelTask tid, Effect.deleteAsset (assetIdOf r image_id),
       Effect.buildExport (exportIdOf r image_id) (assetIdOf r image_id)] ∧
    (processScene r image_id).count (Effect.cancelTask tid) = 1 ∧
    (processScene r image_id).count
      (Effect.deleteAsset (assetIdOf r image_id)) = 1 ∧
    Effect.startExport (exportIdOf r image_id) ∉ processScene r image_id := by
  have htr : processScene r image_id =
      [Effect.cancelTask tid, Effect.deleteAsset (assetIdOf r image_id),
       Effect.buildExport (exportIdOf r image_id) (assetIdOf r image_id)] := by
    simp [processScene, hov, htask, hasset]
  refine ⟨htr, ?_, ?_, ?_⟩ <;> rw [htr] <;>
    simp [List.count_cons, List.count_nil]

theorem overwrite_cancel_delete_rebuild_check :
    processScene overwriteRun "C/S" =
      [Effect.cancelTask "TID", Effect.deleteAsset (assetIdOf overwriteRun "C/S"),
       Effect.buildExport (exportIdOf overwriteRun "C/S")
         (assetIdOf overwriteRun "C/S")] ∧
    (processScene overwriteRun "C/S").count (Effect.cancelTask "TID") = 1 ∧
    (processScene overwriteRun "C/S").count
      (Effect.deleteAsset (assetIdOf overwriteRun "C/S")) = 1 ∧
    Effect.startExport (exportIdOf overwriteRun "C/S") ∉
      processScene overwriteRun "C/S" :=
  overwrite_cancel_delete_rebuild overwriteRun "C/S" "TID" rfl (by decide)
    (by decide)

/-- C4 (counterexample to the claim as stated): with pixel count 5000
strictly above the threshold 1000 but statistic 0, the emitted output is
fully masked at pixel 0 while "mask band plus statistic, clipped to the
footprint" is a valid pixel of value 0 there: the transparency-clearing
`updateMask(unmask(0))` step at line 393 also masks pixels whose value is
exactly zero. -/
theorem zero_tcorr_masked_despite_count :
    (1000 : ℚ) < 5000 ∧
    outputImg (multiplyConst constBand 0) fullFootprint 1000 0 5000 0 = none ∧
    clipTo (addConst (multiplyConst constBand 0) 0) fullFootprint 0 = some 0 := by
  refine ⟨by norm_num, ?_, ?_⟩ <;>
    norm_num [outputImg, tcorrImg, clipTo, addConst, multiplyConst,
      unmaskZero, updateMask, updateMaskZero, constBand, fullFootprint]

/-- C4 (amended): if the supporting pixel count is at or below the
configured minimum, the emitted output is fully masked regardless of the
statistic; if the count is strictly above the minimum and the statistic is
nonzero, the emitted output equals the reference mask band plus the scalar
statistic, clipped to the scene footprint (a zero statistic instead yields
a fully masked output, because the transparency-clearing re-mask removes
zero-valued pixels). -/
theorem output_masking_policy (tmaxBand : EEImage) (footprint : ℕ → Bool)
    (min_pixel_count tcorr count : ℚ) :
    (count ≤ min_pixel_count →
      ∀ p, outputImg (multiplyConst tmaxBand 0) footprint
        min_pixel_count tcorr count p = none) ∧
    (count > min_pixel_count → tcorr ≠ 0 →
      ∀ p, outputImg (multiplyConst tmaxBand 0) footprint
          min_pixel_count tcorr count p =
        clipTo (addConst (multiplyConst tmaxBand 0) tcorr) footprint p) := by
  constructor
  · intro hle p
    have hnot : ¬ count > min_pixel_count := not_lt.mpr hle
    simp [outputImg, tcorrImg, hnot, updateMaskZero, clipTo, unmaskZero,
      updateMask]
  · intro hgt hne p
    simp only [outputImg, tcorrImg, if_pos hgt, clipTo, addConst,
      multiplyConst, unmaskZero, updateMask]
    cases hfp : footprint p
    · simp
    · cases hb : tmaxBand p
      · simp
      · simp [mul_zero, zero_add, hne]

theorem output_masking_policy_check :
    outputImg (multiplyConst constBand 0) fullFootprint 1000 3 500 0 = none :=
  (output_masking_policy constBand fullFootprint 1000 3 500).1 (by norm_num) 0

/-- C8: when the clamped start date falls after the clamped end date, the
run stops with the descriptive `ValueError` message before the WRS2 tiles
are enumerated; no tile is listed and no export work is attempted. -/
theorem start_after_end_aborts (r : RunInput)
    (h : clampStartDt r.start_dt > clampEndDt r.end_dt r.today) :
    runMain r = (setupTrace r, some "start date must be before end date") ∧
    Effect.enumTiles ∉ (runMain r).1 ∧
    ∀ eid aid, Effect.buildExport eid aid ∉ (runMain r).1 := by
  have hres : resolveDates r.start_dt r.end_dt r.today =
      Except.error "start date must be before end date" := by
    simp [resolveDates, h]
  have hrm : runMain r = (setupTrace r, some "start date must be before end date") := by
    simp [runMain, hres]
  refine ⟨hrm, ?_, ?_⟩
  · rw [hrm]
    cases hc : r.collExists <;> simp [setupTrace, hc]
  · intro eid aid
    rw [hrm]
    cases hc : r.collExists <;> simp [setupTrace, hc]

theorem start_after_end_aborts_check :
    Effect.enumTiles ∉ (runMain abortRun).1 ∧
    runMain abortRun = (setupTrace abortRun, some "start date must be before end date") :=
  ⟨(start_after_end_aborts abortRun (by decide)).2.1,
   (start_after_end_aborts abortRun (by decide)).1⟩

/-- C9: when listing a tile's scene identifiers fails, the tile contributes
only the skip warning to the run's trace — none of its scenes is built or
submitted — and the run continues with the remaining tiles. -/
theorem failed_tile_listing_skipped (r : RunInput) (t msg : String)
    (pre post : List String) (d : ℚ × ℚ)
    (hfail : r.listing t = Except.error msg)
    (htiles : r.tiles = pre ++ t :: post)
    (hok : resolveDates r.start_dt r.end_dt r.today = Except.ok d) :
    processTile r t = [Effect.logWarnSkipTile t] ∧
    (∀ eid aid, Effect.buildExport eid aid ∉ processTile r t) ∧
    (runMain r).1 =
      setupTrace r ++ Effect.enumTiles ::
        (pre.flatMap (processTile r) ++
          Effect.logWarnSkipTile t :: post.flatMap (processTile r)) := by
  have hp : processTile r t = [Effect.logWarnSkipTile t] := by
    simp [processTile, hfail]
  refine ⟨hp, ?_, ?_⟩
  · intro eid aid
    rw [hp]
    simp
  · simp [runMain, hok, htiles, List.flatMap_append, List.flatMap_cons, hp]

theorem failed_tile_listing_skipped_check :
    processTile skipTileRun "bad" = [Effect.logWarnSkipTile "bad"] ∧
    (runMain skipTileRun).1 =
      setupTrace skipTileRun ++ Effect.enumTiles ::
        (List.flatMap [] (processTile skipTileRun) ++
          Effect.logWarnSkipTile "bad" ::
            List.flatMap ["good"] (processTile skipTileRun)) :=
  ⟨(failed_tile_listing_skipped skipTileRun "bad" "e" [] ["good"]
      (724360, 724365) rfl rfl rfl).1,
   (failed_tile_listing_skipped skipTileRun "bad" "e" [] ["good"]
      (724360, 724365) rfl rfl rfl).2.2⟩

/-- C10: when the target export image collection does not exist, the run's
trace opens with the interactive ENTER prompt, then the collection
creation, and only then the asset-list and task-snapshot fetches — the run
neither fails nor proceeds silently past the missing collection. -/
theorem missing_collection_prompts_then_creates (r : RunInput)
    (h : r.collExists = false) :
    (runMain r).1.take 4 =
      [Effect.promptEnter, Effect.createCollection (collIdOf r),
       Effect.getAssetList (collIdOf r), Effect.getTasks] := by
  have hs : setupTrace r =
      [Effect.promptEnter, Effect.createCollection (collIdOf r),
       Effect.getAssetList (collIdOf r), Effect.getTasks] := by
    simp [setupTrace, h]
  cases hres : resolveDates r.start_dt r.end_dt r.today <;>
    simp [runMain, hres, hs]

theorem missing_collection_prompts_then_creates_check :
    (runMain missingCollRun).1.take 4 =
      [Effect.promptEnter, Effect.createCollection (collIdOf missingCollRun),
       Effect.getAssetList (collIdOf missingCollRun), Effect.getTasks] :=
  missing_collection_prompts_then_creates missingCollRun rfl

end TcorrExport
